import Mathlib

/-!
Shallow embedding of the RAG-Intelligent-System search pipeline
(`app/controller/*.py`, `app/services/hkgenai.py`) together with proofs of
the behavioural properties stated in the natural-language specification.

External collaborators (the HKGAI chat endpoint, `json.loads`, the
`rank_bm25` scorer, the FAISS vector store, SerpAPI and the domain APIs)
are modelled as explicit oracle parameters; everything that is code of
this repository is translated from the source.  Python floats are
modelled as rationals, Python dicts as association lists with
set-in-place-or-append insertion, and Python exceptions as `Except`
values (respectively as the `none` branch of an `Option`).
-/

namespace RAG

/-- JSON-like Python values as produced by `json.loads` and passed around
the pipeline's dicts. Numbers are modelled as rationals. -/
inductive JsonV where
  | null
  | bool (b : Bool)
  | num (n : ℚ)
  | str (s : String)
  | arr (l : List JsonV)
  | obj (o : List (String × JsonV))
deriving Repr

mutual

def JsonV.decEq : (a b : JsonV) → Decidable (a = b)
  | .null, .null => .isTrue rfl
  | .bool a, .bool b =>
      if h : a = b then .isTrue (by rw [h]) else .isFalse (fun hh => h (by injection hh))
  | .num a, .num b =>
      if h : a = b then .isTrue (by rw [h]) else .isFalse (fun hh => h (by injection hh))
  | .str a, .str b =>
      if h : a = b then .isTrue (by rw [h]) else .isFalse (fun hh => h (by injection hh))
  | .arr a, .arr b =>
      match JsonV.decEqList a b with
      | .isTrue h => .isTrue (by rw [h])
      | .isFalse h => .isFalse (fun hh => h (by injection hh))
  | .obj a, .obj b =>
      match JsonV.decEqObj a b with
      | .isTrue h => .isTrue (by rw [h])
      | .isFalse h => .isFalse (fun hh => h (by injection hh))
  | .null, .bool _ => .isFalse (by intro h; exact JsonV.noConfusion h)
  | .null, .num _ => .isFalse (by intro h; exact JsonV.noConfusion h)
  | .null, .str _ => .isFalse (by intro h; exact JsonV.noConfusion h)
  | .null, .arr _ => .isFalse (by intro h; exact JsonV.noConfusion h)
  | .null, .obj _ => .isFalse (by intro h; exact JsonV.noConfusion h)
  | .bool _, .null => .isFalse (by intro h; exact JsonV.noConfusion h)
  | .bool _, .num _ => .isFalse (by intro h; exact JsonV.noConfusion h)
  | .bool _, .str _ => .isFalse (by intro h; exact JsonV.noConfusion h)
  | .bool _, .arr _ => .isFalse (by intro h; exact JsonV.noConfusion h)
  | .bool _, .obj _ => .isFalse (by intro h; exact JsonV.noConfusion h)
  | .num _, .null => .isFalse (by intro h; exact JsonV.noConfusion h)
  | .num _, .bool _ => .isFalse (by intro h; exact JsonV.noConfusion h)
  | .num _, .str _ => .isFalse (by intro h; exact JsonV.noConfusion h)
  | .num _, .arr _ => .isFalse (by intro h; exact JsonV.noConfusion h)
  | .num _, .obj _ => .isFalse (by intro h; exact JsonV.noConfusion h)
  | .str _, .null => .isFalse (by intro h; exact JsonV.noConfusion h)
  | .str _, .bool _ => .isFalse (by intro h; exact JsonV.noConfusion h)
  | .str _, .num _ => .isFalse (by intro h; exact JsonV.noConfusion h)
  | .str _, .arr _ => .isFalse (by intro h; exact JsonV.noConfusion h)
  | .str _, .obj _ => .isFalse (by intro h; exact JsonV.noConfusion h)
  | .arr _, .null => .isFalse (by intro h; exact JsonV.noConfusion h)
  | .arr _, .bool _ => .isFalse (by intro h; exact JsonV.noConfusion h)
  | .arr _, .num _ => .isFalse (by intro h; exact JsonV.noConfusion h)
  | .arr _, .str _ => .isFalse (by intro h; exact JsonV.noConfusion h)
  | .arr _, .obj _ => .isFalse (by intro h; exact JsonV.noConfusion h)
  | .obj _, .null => .isFalse (by intro h; exact JsonV.noConfusion h)
  | .obj _, .bool _ => .isFalse (by intro h; exact JsonV.noConfusion h)
  | .obj _, .num _ => .isFalse (by intro h; exact JsonV.noConfusion h)
  | .obj _, .str _ => .isFalse (by intro h; exact JsonV.noConfusion h)
  | .obj _, .arr _ => .isFalse (by intro h; exact JsonV.noConfusion h)

def JsonV.decEqList : (a b : List JsonV) → Decidable (a = b)
  | [], [] => .isTrue rfl
  | [], _ :: _ => .isFalse (by simp)
  | _ :: _, [] => .isFalse (by simp)
  | x :: xs, y :: ys =>
      match JsonV.decEq x y, JsonV.decEqList xs ys with
      | .isTrue h1, .isTrue h2 => .isTrue (by rw [h1, h2])
      | .isFalse h1, _ => .isFalse (fun hh => h1 (by injection hh))
      | _, .isFalse h2 => .isFalse (fun hh => h2 (by injection hh))

def JsonV.decEqObj : (a b : List (String × JsonV)) → Decidable (a = b)
  | [], [] => .isTrue rfl
  | [], _ :: _ => .isFalse (by simp)
  | _ :: _, [] => .isFalse (by simp)
  | (k, v) :: xs, (k', v') :: ys =>
      match String.decEq k k', JsonV.decEq v v', JsonV.decEqObj xs ys with
      | .isTrue h0, .isTrue h1, .isTrue h2 => .isTrue (by rw [h0, h1, h2])
      | .isFalse h0, _, _ =>
          .isFalse (fun hh => by
            injection hh with hp hr
            exact h0 (congrArg Prod.fst hp))
      | _, .isFalse h1, _ =>
          .isFalse (fun hh => by
            injection hh with hp hr
            exact h1 (congrArg Prod.snd hp))
      | _, _, .isFalse h2 => .isFalse (fun hh => h2 (by injection hh))

end

instance : DecidableEq JsonV := JsonV.decEq

/-- First-match lookup in a Python dict modelled as an association list
(keys are unique in every dict the code builds). -/
def dlookup (o : List (String × JsonV)) (k : String) : Option JsonV :=
  match o with
  | [] => none
  | (k', v) :: rest => if k' = k then some v else dlookup rest k

/-- Python's `k in d` key-membership test. -/
def dcontains (o : List (String × JsonV)) (k : String) : Bool :=
  (dlookup o k).isSome

/-- Python dict assignment `d[k] = v`: update the binding in place if the
key exists, otherwise append it at the end (insertion order preserved). -/
def dinsert (o : List (String × JsonV)) (k : String) (v : JsonV) :
    List (String × JsonV) :=
  match o with
  | [] => [(k, v)]
  | (k', v') :: rest =>
      if k' = k then (k', v) :: rest else (k', v') :: dinsert rest k v

/-- Python `str.strip()`: drop leading and trailing whitespace
(structurally recursive so that concrete runs reduce in the kernel). -/
def pyStrip (s : String) : String :=
  ⟨((s.data.dropWhile Char.isWhitespace).reverse.dropWhile Char.isWhitespace).reverse⟩

/-- Python `str.startswith(pre)`. -/
def pyStartsWith (s pre : String) : Bool :=
  pre.data.isPrefixOf s.data

/-- Character-list worker for `str.replace(old, "")`: the fuel argument
(instantiated with the string length, which bounds the number of steps
for a non-empty pattern) keeps the recursion structural. -/
def removeAllAux (pat : List Char) : Nat → List Char → List Char
  | _, [] => []
  | 0, l => l
  | n + 1, c :: rest =>
      if pat ≠ [] && pat.isPrefixOf (c :: rest) then
        removeAllAux pat n ((c :: rest).drop pat.length)
      else c :: removeAllAux pat n rest

/-- Python `s.replace(old, "")` for a non-empty `old` (the only form the
code uses): delete every occurrence of the pattern, scanning left to
right. -/
def pyRemoveAll (s old : String) : String :=
  ⟨removeAllAux old.data s.data.length s.data⟩

/-- Python `str.lower()`. -/
def pyLower (s : String) : String :=
  ⟨s.data.map Char.toLower⟩

/-- Character-list worker for `str.split()` (whitespace runs, empties
dropped); `cur` holds the current word reversed. -/
def pySplitChars : List Char → List Char → List String
  | [], cur => if cur.isEmpty then [] else [⟨cur.reverse⟩]
  | c :: rest, cur =>
      if c.isWhitespace then
        if cur.isEmpty then pySplitChars rest []
        else ⟨cur.reverse⟩ :: pySplitChars rest []
      else pySplitChars rest (c :: cur)

/-- Python `str.split()`: split on whitespace runs, dropping empties. -/
def pySplit (s : String) : List String :=
  pySplitChars s.data []

/-- Python truthiness of a JSON-like value (`if x:`). -/
def pyTruthy : JsonV → Bool
  | .null => false
  | .bool b => b
  | .num n => n ≠ 0
  | .str s => s ≠ ""
  | .arr l => !l.isEmpty
  | .obj o => !o.isEmpty

/-- Python equality between an arbitrary value and a string constant
(`x == "weather"`): only a string can compare equal to a string. -/
def pyEqStr : JsonV → String → Bool
  | .str s, t => s = t
  | _, _ => false

/-! ### Constants (`app/constants.py`) -/

def INTENT_ANALYTICAL : String := "analytical"
def INTENT_FACTUAL : String := "factual"
def INTENT_CONVERSATIONAL : String := "conversational"
def INTENT_TRANSACTIONAL : String := "transactional"

def DOMAIN_WEATHER : String := "weather"
def DOMAIN_TRANSPORTATION : String := "transportation"
def DOMAIN_FINANCE : String := "finance"
def DOMAIN_GENERAL : String := "general"

def VALID_INTENTS : List String :=
  [INTENT_ANALYTICAL, INTENT_FACTUAL, INTENT_CONVERSATIONAL, INTENT_TRANSACTIONAL]
def VALID_DOMAINS : List String :=
  [DOMAIN_WEATHER, DOMAIN_TRANSPORTATION, DOMAIN_FINANCE, DOMAIN_GENERAL]

def SOURCE_LOCAL_KB : String := "local_kb"
def SOURCE_DOMAIN_API : String := "domain_api"
def SOURCE_WEB_SEARCH : String := "web_search"

def RESULT_SOURCE_LOCAL_KB : String := "local_kb"
def RESULT_SOURCE_WEB : String := "web"
def RESULT_SOURCE_DOMAIN_API : String := "domain_api"

def DEFAULT_SCORE_LOCAL_KB : ℚ := 1/2
def DEFAULT_SCORE_WEB : ℚ := 7/10
def DEFAULT_SCORE_DOMAIN_API : ℚ := 9/10
def DEFAULT_SCORE_WEB_RESULTS : ℚ := 8/10

def BM25_WEIGHT_ORIGINAL : ℚ := 7/10
def BM25_WEIGHT_BM25 : ℚ := 3/10

def ENTITY_KEY_LOCATIONS : String := "locations"
def ENTITY_KEY_ORGANIZATIONS : String := "organizations"
def ENTITY_KEY_STOCK_SYMBOLS : String := "stock_symbols"
def ENTITY_KEY_DATES : String := "dates"
def ENTITY_KEY_PRODUCTS : String := "products"
def ENTITY_KEY_GENERAL : String := "general"

/-- The six entity keys in the order `classify_with_llm` iterates them. -/
def ENTITY_KEYS : List String :=
  [ENTITY_KEY_LOCATIONS, ENTITY_KEY_ORGANIZATIONS, ENTITY_KEY_STOCK_SYMBOLS,
   ENTITY_KEY_DATES, ENTITY_KEY_PRODUCTS, ENTITY_KEY_GENERAL]

def MARKDOWN_JSON_START : String := "```json"
def MARKDOWN_CODE_START : String := "```"

def LOG_RESPONSE_ERROR : String :=
  "I apologize, but I encountered an error generating a response."
def LOG_RESPONSE_FALLBACK : String :=
  "I couldn't generate a response at this time."
def ERROR_PIPELINE_PROCESSING : String :=
  "I apologize, but I encountered an error processing your query"

/-- The file `app/models/classifiers.py` sets this flag unconditionally. -/
def ML_AVAILABLE : Bool := true

/-! ### The HKGAI chat collaborator (`app/services/hkgenai.py`) -/

/-- The dictionary `HKGAIClient.chat` hands back to its callers: it either
carries an `error` key or a `content` key (possibly both absent only for
replies no code path of the client produces). -/
structure ChatReply where
  error : Option String
  content : Option String
deriving DecidableEq, Repr

instance instDecEqExcept {e a : Type} [DecidableEq e] [DecidableEq a] :
    DecidableEq (Except e a) := fun x y =>
  match x, y with
  | .ok u, .ok v =>
      if h : u = v then .isTrue (by rw [h]) else .isFalse (fun hh => h (by injection hh))
  | .error u, .error v =>
      if h : u = v then .isTrue (by rw [h]) else .isFalse (fun hh => h (by injection hh))
  | .ok _, .error _ => .isFalse (fun hh => Except.noConfusion hh)
  | .error _, .ok _ => .isFalse (fun hh => Except.noConfusion hh)

/-- Outcome of the underlying HTTP exchange, as seen by
`HKGAIClient.chat`: the request raised (network error / bad status,
caught inside the method), the 200 response body was not JSON (so
`response.json()`, which sits outside the `try`, raises through the
method), or a body was obtained from which the client extracted a
content string (empty when the response held none). -/
inductive HttpOutcome where
  | failure (e : String)
  | invalidJson (e : String)
  | success (extracted : String)
deriving DecidableEq, Repr

namespace HKGAIClient

/-- Method `HKGAIClient.chat`: a request exception becomes `{"error": str(e)}`;
a non-JSON response body makes the method itself raise
(`Except.error`); otherwise the extracted content is stripped and
returned under the `content` key (an empty string is returned as
`{"content": "", ...}`, still without an `error` key). -/
def chat : HttpOutcome → Except String ChatReply
  | .failure e => .ok { error := some e, content := none }
  | .invalidJson e => .error e
  | .success extracted => .ok { error := none, content := some (pyStrip extracted) }

end HKGAIClient

/-! ### Response synthesis (`app/controller/response_generation.py`) -/

/-- The branch `generate_response` takes on the collaborator's reply
dict: an `error` key yields the static apology; otherwise the `content`
value is returned, with `LOG_RESPONSE_FALLBACK` substituted only when
the `content` key is missing altogether. -/
def generate_reply_branch (result : ChatReply) : String :=
  if result.error.isSome then LOG_RESPONSE_ERROR
  else result.content.getD LOG_RESPONSE_FALLBACK

/-- Function `generate_response` (the prompt construction preceding the `chat`
call only shapes the collaborator's input, which is oracle-modelled):
invokes the chat collaborator and branches on its reply.  The function
has no `try`, so an exception raised by the client propagates to the
caller. -/
def generate_response (http : HttpOutcome) : Except String String :=
  match HKGAIClient.chat http with
  | .error e => .error e
  | .ok result => .ok (generate_reply_branch result)

/-! ### Query understanding (`app/controller/query_understanding.py`) -/

/-- Ambient context computed by `get_user_context` (network lookup with a
fixed Hong Kong fallback; modelled as a plain value since the lookup is
an external best-effort call). -/
structure UserContext where
  current_time : String
  location : String
  country : String
  timezone : String
  latitude : ℚ
  longitude : ℚ
deriving DecidableEq, Repr

/-- Function `_create_empty_entities`: the six entity keys, each bound to an empty
list, in source order. -/
def create_empty_entities : List (String × JsonV) :=
  [(ENTITY_KEY_LOCATIONS, .arr []),
   (ENTITY_KEY_ORGANIZATIONS, .arr []),
   (ENTITY_KEY_STOCK_SYMBOLS, .arr []),
   (ENTITY_KEY_DATES, .arr []),
   (ENTITY_KEY_PRODUCTS, .arr []),
   (ENTITY_KEY_GENERAL, .arr [])]

/-- The markdown code-fence stripping applied to the classification
reply's content before `json.loads` (Python `str.replace` replaces every
occurrence). -/
def stripFences (content : String) : String :=
  if pyStartsWith content MARKDOWN_JSON_START then
    pyStrip (pyRemoveAll (pyRemoveAll content MARKDOWN_JSON_START) MARKDOWN_CODE_START)
  else if pyStartsWith content MARKDOWN_CODE_START then
    pyStrip (pyRemoveAll content MARKDOWN_CODE_START)
  else content

/-- The validated classification dict `classify_with_llm` returns (the
four fields later consumed by `query_understanding`; further keys of the
model's JSON are carried along in the Python dict but never read). -/
structure LLMResult where
  intent : JsonV
  domain : JsonV
  needs_web : JsonV
  entities : List (String × JsonV)
deriving DecidableEq, Repr

/-- One iteration of the 6-key fill loop at the end of
`classify_with_llm` (`if key not in entities: entities[key] = []`). -/
def fillStep (e : List (String × JsonV)) (k : String) : List (String × JsonV) :=
  if dcontains e k then e else e ++ [(k, .arr [])]

/-- The 6-key fill loop at the end of `classify_with_llm`: any of the six
entity keys not yet present is bound to an empty list. -/
def fillEntityKeys (entities : List (String × JsonV)) : List (String × JsonV) :=
  ENTITY_KEYS.foldl fillStep entities

/-- The coercion `classify_with_llm` applies to a non-dict `entities`
value: a list is wrapped as `{"general": the list}`, anything else
becomes `{"general": []}`; a dict is kept as is. -/
def coerceEntities : JsonV → List (String × JsonV)
  | .obj o => o
  | .arr l => [(ENTITY_KEY_GENERAL, .arr l)]
  | _ => [(ENTITY_KEY_GENERAL, .arr [])]

/-- The dict form of the model's `entities` value before the 6-key fill:
a missing `entities` key is first replaced by the all-empty dict, then a
non-dict value is coerced (`coerceEntities`). -/
def rawEntities (kvs : List (String × JsonV)) : List (String × JsonV) :=
  coerceEntities ((dlookup kvs "entities").getD (.obj create_empty_entities))


/-- The part of `classify_with_llm` that handles the chat reply dict,
parameterized by the `json.loads` oracle.  Returns `none` (Python
`None`) on: an `error` key in the reply, empty stripped content, a JSON
parse error, a parse result that is not a JSON object (Python raises a
`TypeError` on the key lookup or indexing, caught by the enclosing
`except`), a missing `intent` or `domain` key, or an `intent`/`domain`
value outside the closed enum lists.  Otherwise fills `needs_web` and
`entities` defaults and normalizes `entities` exactly as the source
does. -/
def classify_body (parse : String → Option JsonV) (reply : ChatReply) :
    Option LLMResult :=
  if reply.error.isSome then none
  else
    let content := pyStrip (reply.content.getD "")
    if content = "" then none
    else
      match parse (stripFences content) with
      | none => none
      | some (.obj result) =>
          match dlookup result "intent", dlookup result "domain" with
          | some intent, some domain =>
              if !(VALID_INTENTS.any (pyEqStr intent)) then none
              else if !(VALID_DOMAINS.any (pyEqStr domain)) then none
              else
                let result :=
                  if dcontains result "needs_web" then result
                  else dinsert result "needs_web"
                    (.bool ([DOMAIN_WEATHER, DOMAIN_TRANSPORTATION, DOMAIN_FINANCE].any
                      (pyEqStr domain)))
                let result :=
                  if dcontains result "entities" then result
                  else dinsert result "entities" (.obj create_empty_entities)
                let entities := coerceEntities ((dlookup result "entities").getD (.obj []))
                some { intent := intent
                       domain := domain
                       needs_web := (dlookup result "needs_web").getD (.bool false)
                       entities := fillEntityKeys entities }
          | _, _ => none
      | some _ => none

/-- Function `classify_with_llm`: the chat call happens inside the function's
`try`, so an exception raised by the client (e.g. a non-JSON response
body) is caught by the generic `except` and becomes `None`, like every
validation failure of the reply itself. -/
def classify_with_llm (parse : String → Option JsonV) (http : HttpOutcome) :
    Option LLMResult :=
  match HKGAIClient.chat http with
  | .error _ => none
  | .ok reply => classify_body parse reply

/-- The structured `Understanding` consumed by all later stages. -/
structure Understanding where
  intent : JsonV
  domain : JsonV
  needs_web : JsonV
  entities : List (String × JsonV)
  user_context : UserContext
deriving DecidableEq, Repr

/-- The conservative default `Understanding` returned when classification
fails. -/
def defaultUnderstanding (uc : UserContext) : Understanding :=
  { intent := .str INTENT_FACTUAL
    domain := .str DOMAIN_GENERAL
    needs_web := .bool true
    entities := create_empty_entities
    user_context := uc }

/-- Function `query_understanding`: runs the LLM classification and falls back to
the default on a `None` result (the classifier never returns an empty
dict, so Python's `if not llm_result:` coincides with the `none` test). -/
def query_understanding (parse : String → Option JsonV) (http : HttpOutcome)
    (uc : UserContext) : Understanding :=
  match classify_with_llm parse http with
  | none => defaultUnderstanding uc
  | some r =>
      { intent := r.intent
        domain := r.domain
        needs_web := r.needs_web
        entities := r.entities
        user_context := uc }

/-! ### Source selection (`app/controller/source_selection.py`) -/

structure SourceSelection where
  sources : List String
  domain_handler : Option String
  priority : List String
deriving DecidableEq, Repr

/-- Function `source_selection`: pure mapping from an `Understanding` to the
sources to query, the domain handler, and the priority order, translated
branch for branch (including the final fix-up loop appending any source
missing from `priority`). -/
def source_selection (u : Understanding) : SourceSelection :=
  let domain := u.domain
  let needs_web := u.needs_web
  let intent := u.intent
  let step1 : List String × List String × Option String :=
    if pyEqStr domain DOMAIN_FINANCE then
      ([SOURCE_DOMAIN_API], [SOURCE_DOMAIN_API], some DOMAIN_FINANCE)
    else if pyEqStr domain DOMAIN_WEATHER then
      ([SOURCE_DOMAIN_API], [SOURCE_DOMAIN_API], some DOMAIN_WEATHER)
    else if pyEqStr domain DOMAIN_TRANSPORTATION then
      ([SOURCE_DOMAIN_API], [SOURCE_DOMAIN_API], some DOMAIN_TRANSPORTATION)
    else ([], [], none)
  let sources := step1.1
  let priority := step1.2.1
  let domain_handler := step1.2.2
  let step2 : List String × List String :=
    if pyTruthy needs_web then
      (sources ++ [SOURCE_WEB_SEARCH],
       if pyEqStr domain DOMAIN_GENERAL then SOURCE_WEB_SEARCH :: priority
       else priority ++ [SOURCE_WEB_SEARCH])
    else (sources, priority)
  let sources := step2.1 ++ [SOURCE_LOCAL_KB]
  let priority :=
    if pyEqStr intent INTENT_CONVERSATIONAL ||
       (pyEqStr domain DOMAIN_GENERAL && !pyTruthy needs_web) then
      SOURCE_LOCAL_KB :: step2.2
    else step2.2 ++ [SOURCE_LOCAL_KB]
  let priority := sources.foldl (fun p s => if s ∈ p then p else p ++ [s]) priority
  { sources := sources, domain_handler := domain_handler, priority := priority }

/-! ### Retrieval (`app/controller/retrieval.py`) -/

/-- A result dict as built by the KB / web backends and
`get_hkgai_answer` (`score` and `rank` are optional keys; items built by
the repository's own backends always carry them). -/
structure ResultItem where
  content : JsonV
  score : Option ℚ
  source : String
  rank : Option ℤ
deriving DecidableEq, Repr

/-- Function `get_hkgai_answer`: asks the chat collaborator for an unguided direct
answer inside a `try`; a reply whose `content` key is present and truthy
becomes a synthetic result with score 1.0 and rank 0, anything else (no
`content` key, empty content, or a raised exception, caught by the
`except`) becomes the empty dict, modelled as `none`. -/
def get_hkgai_answer (http : HttpOutcome) : Option ResultItem :=
  match HKGAIClient.chat http with
  | .error _ => none
  | .ok reply =>
      match reply.content with
      | some c =>
          if c ≠ "" then
            some { content := .str c, score := some 1, source := "hkgai_direct", rank := some 0 }
          else none
      | none => none

/-- The three buckets `retrieve_information` returns. -/
structure RetrievalResult where
  local_kb_results : List ResultItem
  web_results : List ResultItem
  domain_api_results : List (String × JsonV)
deriving DecidableEq, Repr

/-- Backend oracles for one run of `retrieve_information`: the value each
external fetch would produce (`retrieve_from_web` is deterministic per
query/context pair, so its two possible call sites observe the same
list). -/
structure Backends where
  kb : List ResultItem
  web : List ResultItem
  domainApi : List (String × JsonV)
  hkgaiChat : HttpOutcome
deriving Repr

/-- Observable backend invocations of `retrieve_information`, recorded in
program order. -/
inductive RetEvent where
  | kbCall
  | hkgaiCall
  | webSearchCall
  | domainCall
deriving DecidableEq, Repr

/-- Python truthiness of the `domain_handler` value (`None` or a string). -/
def handlerTruthy : Option String → Bool
  | none => false
  | some s => s ≠ ""

/-- The `UnboundLocalError` message raised when `kb_results` is read
without having been assigned. -/
def UNBOUND_LOCAL_MSG : String :=
  "cannot access local variable 'kb_results' where it is not associated with a value"

/-- Function `retrieve_information`, translated statement for statement; the
second component of the result is the trace of backend calls.  The
`kb_results` local is assigned only inside the `local_kb` branch but read
unconditionally (both to prepend the direct answer and to fill the
bucket), so when `local_kb` is not among the selected sources the
function raises `UnboundLocalError`, modelled as `Except.error`.  The
domain-API-failure fallback overwrites the web bucket with a fresh
web-search call when `web_search` was not selected. -/
def retrieve_information (B : Backends) (sel : SourceSelection) :
    Except String (RetrievalResult × List RetEvent) := do
  let kbOpt : Option (List ResultItem) × List RetEvent :=
    if SOURCE_LOCAL_KB ∈ sel.sources then (some B.kb, [RetEvent.kbCall]) else (none, [])
  let step ←
    if SOURCE_WEB_SEARCH ∉ sel.sources then
      match get_hkgai_answer B.hkgaiChat with
      | some item =>
          match kbOpt.1 with
          | some kb => pure (item :: kb, kbOpt.2 ++ [RetEvent.hkgaiCall])
          | none => throw UNBOUND_LOCAL_MSG
      | none =>
          match kbOpt.1 with
          | some kb => pure (kb, kbOpt.2 ++ [RetEvent.hkgaiCall])
          | none => throw UNBOUND_LOCAL_MSG
    else
      match kbOpt.1 with
      | some kb => pure (kb, kbOpt.2)
      | none => throw UNBOUND_LOCAL_MSG
  let kb_results := step.1
  let webStep : List ResultItem × List RetEvent :=
    if SOURCE_WEB_SEARCH ∈ sel.sources then (B.web, step.2 ++ [RetEvent.webSearchCall])
    else ([], step.2)
  if SOURCE_DOMAIN_API ∈ sel.sources ∧ handlerTruthy sel.domain_handler then
    let api := B.domainApi
    let tr := webStep.2 ++ [RetEvent.domainCall]
    if (dlookup api "error").isSome ∧ SOURCE_WEB_SEARCH ∉ sel.sources then
      pure ({ local_kb_results := kb_results, web_results := B.web,
              domain_api_results := api }, tr ++ [RetEvent.webSearchCall])
    else
      pure ({ local_kb_results := kb_results, web_results := webStep.1,
              domain_api_results := api }, tr)
  else
    pure ({ local_kb_results := kb_results, web_results := webStep.1,
            domain_api_results := [] }, webStep.2)

/-! ### Reranking (`app/controller/reranking.py`) -/

/-- A flattened result entry (`{content, source, score}` plus the
`bm25_score` key added by the blending step). -/
structure FlatItem where
  content : JsonV
  source : String
  score : ℚ
  bm25_score : Option ℚ
deriving DecidableEq, Repr

/-- The aggregation loop of `rerank_results`: the three buckets are
flattened in order (local KB, web, domain API), items with no score
receiving the bucket defaults, and a truthy (non-empty) domain dict
contributing a single entry with the domain-API default score. -/
def flatten_results (r : RetrievalResult) : List FlatItem :=
  (r.local_kb_results.map fun k =>
    { content := k.content, source := RESULT_SOURCE_LOCAL_KB,
      score := k.score.getD DEFAULT_SCORE_LOCAL_KB, bm25_score := none })
  ++ (r.web_results.map fun w =>
    { content := w.content, source := RESULT_SOURCE_WEB,
      score := w.score.getD DEFAULT_SCORE_WEB, bm25_score := none })
  ++ (if r.domain_api_results.isEmpty then []
      else [{ content := .obj r.domain_api_results, source := RESULT_SOURCE_DOMAIN_API,
              score := DEFAULT_SCORE_DOMAIN_API, bm25_score := none }])

mutual

/-- A `json.dumps`-style rendering of a value (default separators,
`ensure_ascii=False`); it only feeds the tokenizer whose output the
oracle BM25 scorer consumes. -/
def jsonDumps : JsonV → String
  | .null => "null"
  | .bool true => "true"
  | .bool false => "false"
  | .num n => toString n
  | .str s => "\x22" ++ s ++ "\x22"
  | .arr l => "[" ++ jsonDumpsList l ++ "]"
  | .obj o => "\x7b" ++ jsonDumpsObj o ++ "\x7d"

def jsonDumpsList : List JsonV → String
  | [] => ""
  | [x] => jsonDumps x
  | x :: xs => jsonDumps x ++ ", " ++ jsonDumpsList xs

def jsonDumpsObj : List (String × JsonV) → String
  | [] => ""
  | [(k, v)] => "\x22" ++ k ++ "\x22: " ++ jsonDumps v
  | (k, v) :: xs => "\x22" ++ k ++ "\x22: " ++ jsonDumps v ++ ", " ++ jsonDumpsObj xs

end

/-- Python `str(content)` after the dict case was converted by `json.dumps`: a
string stays itself, a dict is dumped; other values are rendered (the
rendering only feeds the oracle-modelled BM25 scorer). -/
def contentText : JsonV → String
  | .str s => s
  | .obj o => jsonDumps (.obj o)
  | v => jsonDumps v

/-- The raw BM25 scores `BM25Okapi(corpus).get_scores(query)` yields for
a batch: one score per corpus document, computed by the external scorer
`scoreDoc` (whose per-document score may depend on the whole corpus). -/
def bm25RawScores
    (scoreDoc : List (List String) → List String → List String → ℚ)
    (query : String) (results : List FlatItem) : List ℚ :=
  let texts := results.map fun r => contentText r.content
  let tokenized_corpus := texts.map fun t => pySplit (pyLower t)
  let tokenized_query := pySplit (pyLower query)
  tokenized_corpus.map (scoreDoc tokenized_corpus tokenized_query)

/-- Function `apply_bm25_reranking`: returns the batch unchanged when ML is
unavailable or (via the caught `ValueError` of `max([])`) the batch is
empty; otherwise normalizes the raw scores by the batch maximum (divisor
1 when the maximum is not positive) and blends
`0.7 * original + 0.3 * normalized` into each item, recording the
normalized score under `bm25_score`. -/
def apply_bm25_reranking (mlAvailable : Bool)
    (scoreDoc : List (List String) → List String → List String → ℚ)
    (query : String) (results : List FlatItem) : List FlatItem :=
  if !mlAvailable then results
  else
    let bm25_scores := bm25RawScores scoreDoc query results
    match bm25_scores.max? with
    | none => results
    | some m =>
        let max_score := if m > 0 then m else 1
        let normalized_scores := bm25_scores.map (· / max_score)
        (results.zip normalized_scores).map fun p =>
          { p.1 with
            score := BM25_WEIGHT_ORIGINAL * p.1.score + BM25_WEIGHT_BM25 * p.2,
            bm25_score := some p.2 }

/-- Stable insertion step for descending order: an element is placed
before the first strictly smaller score, after any equal one that was
already in place. -/
def insertDesc (x : FlatItem) : List FlatItem → List FlatItem
  | [] => [x]
  | y :: ys => if y.score ≤ x.score then x :: y :: ys else y :: insertDesc x ys

/-- Stable sort by descending score, as Python's
`list.sort(key=lambda x: x.get("score", 0), reverse=True)` (stable,
original order kept on ties): elements are inserted right to left, each
going in front of the later-positioned elements with equal score. -/
def sortByScoreDesc (l : List FlatItem) : List FlatItem :=
  l.foldr insertDesc []

/-- Function `rerank_results`: flatten, blend when ML is available and more than
one entry exists, then stable-sort by descending score. -/
def rerank_results (mlAvailable : Bool)
    (scoreDoc : List (List String) → List String → List String → ℚ)
    (r : RetrievalResult) (query : String) : List FlatItem :=
  let all_results := flatten_results r
  let all_results :=
    if mlAvailable && decide (1 < all_results.length) then
      apply_bm25_reranking mlAvailable scoreDoc query all_results
    else all_results
  sortByScoreDesc all_results

/-! ### The pipeline (`app/controller/pipeline.py`) -/

/-- All external collaborators one pipeline run consults, fixed up
front. -/
structure Oracles where
  classifyHttp : HttpOutcome
  jsonParse : String → Option JsonV
  uc : UserContext
  backends : Backends
  genHttp : HttpOutcome
  scoreDoc : List (List String) → List String → List String → ℚ

/-- The body of `run_search_pipeline`'s `try` block: the five stages in
order.  The two exception sources the embedding models are the
`UnboundLocalError` retrieval can raise and a chat-client exception
propagating out of `generate_response`. -/
def pipeline_attempt (O : Oracles) (query : String) : Except String String := do
  let understanding := query_understanding O.jsonParse O.classifyHttp O.uc
  let sel := source_selection understanding
  let res ← retrieve_information O.backends sel
  let _ranked := rerank_results ML_AVAILABLE O.scoreDoc res.1 query
  generate_response O.genHttp

/-- Function `run_search_pipeline`: the staged body wrapped in the single
top-level `except`, which converts any uncaught exception into
`f"{ERROR_PIPELINE_PROCESSING}: {str(e)}"`. -/
def run_search_pipeline (O : Oracles) (query : String) : String :=
  match pipeline_attempt O query with
  | .ok response => response
  | .error e => ERROR_PIPELINE_PROCESSING ++ ": " ++ e

/-! ### Concrete fixtures used by counterexamples and witnesses -/

/-- A fixed ambient context (the values play no role in any property). -/
def uc0 : UserContext :=
  { current_time := "2025-01-01 12:00:00", location := "Hong Kong",
    country := "Hong Kong", timezone := "Asia/Hong_Kong",
    latitude := 22, longitude := 114 }

/-- A `json.loads` oracle returning a classification whose `entities`
dict binds `locations` to a bare string and carries an extra key. -/
def parse_cx : String → Option JsonV := fun _ =>
  some (.obj [("intent", .str "factual"), ("domain", .str "general"),
              ("needs_web", .bool true),
              ("entities", .obj [("locations", .str "HK"), ("extra", .arr [])])])

/-- The classification result `classify_with_llm` produces from
`parse_cx` on any non-empty reply. -/
def u_cx : LLMResult :=
  { intent := .str "factual", domain := .str "general",
    needs_web := .bool true,
    entities := [("locations", .str "HK"), ("extra", .arr []),
                 ("organizations", .arr []), ("stock_symbols", .arr []),
                 ("dates", .arr []), ("products", .arr []),
                 ("general", .arr [])] }

/-- Oracles for a run in which classification fails over the network,
all backends are empty, and the synthesis model returns an empty
content string. -/
def O_empty : Oracles :=
  { classifyHttp := .failure "connection refused"
    jsonParse := fun _ => none
    uc := uc0
    backends := { kb := [], web := [], domainApi := [], hkgaiChat := .failure "down" }
    genHttp := .success ""
    scoreDoc := fun _ _ _ => 0 }

/-- Oracles identical to `O_empty` except that the synthesis chat call
raises (non-JSON response body). -/
def O_raise : Oracles :=
  { classifyHttp := .failure "connection refused"
    jsonParse := fun _ => none
    uc := uc0
    backends := { kb := [], web := [], domainApi := [], hkgaiChat := .failure "down" }
    genHttp := .invalidJson "Expecting value: line 1 column 1 (char 0)"
    scoreDoc := fun _ _ _ => 0 }

/-- A selection with the domain API and the local KB but no web search
(as `source_selection` yields for a finance query with
`needs_web = false`). -/
def sel_fin : SourceSelection :=
  { sources := [SOURCE_DOMAIN_API, SOURCE_LOCAL_KB]
    domain_handler := some DOMAIN_FINANCE
    priority := [SOURCE_DOMAIN_API, SOURCE_LOCAL_KB] }

/-- The same selection with web search additionally selected. -/
def sel_finweb : SourceSelection :=
  { sources := [SOURCE_DOMAIN_API, SOURCE_WEB_SEARCH, SOURCE_LOCAL_KB]
    domain_handler := some DOMAIN_FINANCE
    priority := [SOURCE_DOMAIN_API, SOURCE_WEB_SEARCH, SOURCE_LOCAL_KB] }

/-- A selection whose sources omit `local_kb` (never produced by
`source_selection`). -/
def sel_nokb : SourceSelection :=
  { sources := [SOURCE_WEB_SEARCH]
    domain_handler := none
    priority := [SOURCE_WEB_SEARCH] }

/-- Backends with a failing domain API, one web result and a non-empty
direct-answer reply. -/
def B_err : Backends :=
  { kb := []
    web := [{ content := .str "w", score := some 1, source := "web", rank := none }]
    domainApi := [("error", .str "finance API unreachable")]
    hkgaiChat := .success "direct answer" }

/-- A BM25 scorer assigning zero to every document. -/
def zeroScoreDoc : List (List String) → List String → List String → ℚ :=
  fun _ _ _ => 0

/-- A two-element flattened batch. -/
def items2 : List FlatItem :=
  [{ content := .str "a", source := RESULT_SOURCE_LOCAL_KB, score := 1, bm25_score := none },
   { content := .str "b", source := RESULT_SOURCE_WEB, score := 0, bm25_score := none }]

/-- A retrieval result with two scored KB items and nothing else. -/
def R2 : RetrievalResult :=
  { local_kb_results :=
      [{ content := .str "a", score := some 1, source := "local_kb", rank := some 1 },
       { content := .str "b", score := none, source := "local_kb", rank := some 2 }]
    web_results := []
    domain_api_results := [] }

/-! ### Helper lemmas -/

theorem dlookup_append (a b : List (String × JsonV)) (k : String) :
    dlookup (a ++ b) k = ((dlookup a k).orElse (fun _ => dlookup b k)) := by
  induction a with
  | nil => simp [dlookup]
  | cons p rest ih =>
      cases p with
      | mk k' v =>
          simp only [List.cons_append, dlookup]
          split_ifs <;> simp [ih]

theorem dlookup_dinsert_self (e : List (String × JsonV)) (k : String) (v : JsonV) :
    dlookup (dinsert e k v) k = some v := by
  induction e with
  | nil => simp [dinsert, dlookup]
  | cons p rest ih =>
      cases p with
      | mk k' v' =>
          simp only [dinsert]
          split_ifs with h
          · subst h; simp [dlookup]
          · simp [dlookup, h, ih]

theorem dlookup_dinsert_other (e : List (String × JsonV)) (k k' : String) (v : JsonV)
    (h : k ≠ k') : dlookup (dinsert e k' v) k = dlookup e k := by
  have h' : ¬ k' = k := fun hh => h hh.symm
  induction e with
  | nil => simp [dinsert, dlookup, h']
  | cons p rest ih =>
      cases p with
      | mk k0 v0 =>
          simp only [dinsert]
          split_ifs with h0
          · subst h0
            simp [dlookup, h']
          · simp [dlookup, ih]

theorem dlookup_fillStep_of_some (e : List (String × JsonV)) (k k' : String) (v : JsonV)
    (h : dlookup e k = some v) : dlookup (fillStep e k') k = some v := by
  unfold fillStep
  split_ifs with hc
  · exact h
  · simp [dlookup_append, h]

theorem dlookup_foldl_fill_of_some (keys : List String) (e : List (String × JsonV))
    (k : String) (v : JsonV) (h : dlookup e k = some v) :
    dlookup (keys.foldl fillStep e) k = some v := by
  induction keys generalizing e with
  | nil => simpa using h
  | cons k' rest ih =>
      simp only [List.foldl_cons]
      exact ih _ (dlookup_fillStep_of_some e k k' v h)

theorem dlookup_foldl_fill_of_none (keys : List String) (e : List (String × JsonV))
    (k : String) (hk : k ∈ keys) (h : dlookup e k = none) :
    dlookup (keys.foldl fillStep e) k = some (.arr []) := by
  induction keys generalizing e with
  | nil => cases hk
  | cons k' rest ih =>
      simp only [List.foldl_cons]
      by_cases heq : k' = k
      · subst heq
        have hstep : dlookup (fillStep e k') k' = some (.arr []) := by
          unfold fillStep
          have hc : dcontains e k' = false := by simp [dcontains, h]
          simp [hc, dlookup_append, h, dlookup]
        exact dlookup_foldl_fill_of_some rest _ k' _ hstep
      · have hmem : k ∈ rest := by
          rcases List.mem_cons.mp hk with h1 | h1
          · exact absurd h1.symm heq
          · exact h1
        apply ih _ hmem
        unfold fillStep
        split_ifs with hc
        · exact h
        · simp [dlookup_append, h, dlookup, heq]

theorem dlookup_foldl_fill_isSome (keys : List String) (e : List (String × JsonV))
    (k : String) (hk : k ∈ keys) :
    (dlookup (keys.foldl fillStep e) k).isSome = true := by
  cases h : dlookup e k with
  | none => simp [dlookup_foldl_fill_of_none keys e k hk h]
  | some v => simp [dlookup_foldl_fill_of_some keys e k v h]

/-- The combined effect of the `needs_web` and `entities` default fills
on the later `entities` lookup: the result is exactly `rawEntities` of
the parsed dict, whatever boolean the `needs_web` fill inserted. -/
theorem entities_default_normalization (kvs : List (String × JsonV)) (w : JsonV) :
    coerceEntities ((dlookup
      (if dcontains (if dcontains kvs "needs_web" then kvs else dinsert kvs "needs_web" w)
          "entities" then
        (if dcontains kvs "needs_web" then kvs else dinsert kvs "needs_web" w)
      else dinsert (if dcontains kvs "needs_web" then kvs else dinsert kvs "needs_web" w)
          "entities" (.obj create_empty_entities))
      "entities").getD (.obj [])) = rawEntities kvs := by
  have hnw : dlookup (if dcontains kvs "needs_web" then kvs
      else dinsert kvs "needs_web" w) "entities" = dlookup kvs "entities" := by
    split_ifs with h
    · rfl
    · exact dlookup_dinsert_other kvs "entities" "needs_web" w (by decide)
  by_cases hec : dcontains (if dcontains kvs "needs_web" then kvs
      else dinsert kvs "needs_web" w) "entities" = true
  · rw [if_pos hec, hnw]
    have hs : (dlookup kvs "entities").isSome = true := by
      rw [dcontains, hnw] at hec
      exact hec
    rcases Option.isSome_iff_exists.mp hs with ⟨v, hv⟩
    unfold rawEntities
    simp [hv]
  · rw [if_neg hec, dlookup_dinsert_self]
    have hs : dlookup kvs "entities" = none := by
      rw [dcontains, hnw] at hec
      simpa [Option.isNone_iff_eq_none] using hec
    unfold rawEntities
    simp [hs]

/-- The synthetic direct-answer item always carries score 1.0, rank 0
and the `hkgai_direct` tag. -/
theorem get_hkgai_answer_fields (http : HttpOutcome) (item : ResultItem)
    (h : get_hkgai_answer http = some item) :
    item.score = some 1 ∧ item.rank = some 0 ∧ item.source = "hkgai_direct" := by
  unfold get_hkgai_answer at h
  cases hch : HKGAIClient.chat http with
  | error e => simp [hch] at h
  | ok reply =>
      rw [hch] at h
      cases hc : reply.content with
      | none => simp [hc] at h
      | some c =>
          simp [hc] at h
          rcases h with ⟨hne, hit⟩
          subst hit
          simp

theorem init_le_foldl_max (l : List ℚ) (b : ℚ) : b ≤ l.foldl max b := by
  induction l generalizing b with
  | nil => simp
  | cons x xs ih =>
      simp only [List.foldl_cons]
      exact le_trans (le_max_left b x) (ih (max b x))

theorem mem_le_foldl_max (l : List ℚ) (b a : ℚ) (h : a ∈ l) : a ≤ l.foldl max b := by
  induction l generalizing b with
  | nil => cases h
  | cons x xs ih =>
      simp only [List.foldl_cons]
      rcases List.mem_cons.mp h with rfl | hmem
      · exact le_trans (le_max_right b a) (init_le_foldl_max xs (max b a))
      · exact ih (max b x) hmem

theorem mem_le_max? (l : List ℚ) (a m : ℚ) (ha : a ∈ l) (hm : l.max? = some m) :
    a ≤ m := by
  cases l with
  | nil => cases ha
  | cons x xs =>
      rw [List.max?_cons'] at hm
      cases Option.some.inj hm
      rcases List.mem_cons.mp ha with rfl | hmem
      · exact init_le_foldl_max xs a
      · exact mem_le_foldl_max xs x a hmem


/-! ### Claim theorems -/

/-- C2: for every `Understanding` value — any combination of `intent`,
`domain` and `needs_web` — the `priority` list `source_selection`
produces is a permutation of its `sources` list (same elements, same
cardinality, each source exactly once, no duplicates, no omissions). -/
theorem C2_priority_perm_sources (u : Understanding) :
    ((source_selection u).priority).Perm ((source_selection u).sources) ∧
    ((source_selection u).priority).Nodup ∧
    ((source_selection u).sources).Nodup := by
  unfold source_selection
  rcases hf : pyEqStr u.domain DOMAIN_FINANCE <;>
  rcases hw : pyEqStr u.domain DOMAIN_WEATHER <;>
  rcases ht : pyEqStr u.domain DOMAIN_TRANSPORTATION <;>
  rcases hg : pyEqStr u.domain DOMAIN_GENERAL <;>
  rcases hn : pyTruthy u.needs_web <;>
  rcases hc : pyEqStr u.intent INTENT_CONVERSATIONAL <;>
  simp only [hf, hw, ht, hg, hn, hc] <;> decide

/-- C10: `retrieve_information` reads `kb_results` unconditionally but
assigns it only when `local_kb` is selected, so every selection without
`local_kb` raises `UnboundLocalError`; and this branch is unreachable
for selections produced by `source_selection`, which always appends
`local_kb` to `sources`. -/
theorem C10_unbound_kb_results :
    (∀ (B : Backends) (sel : SourceSelection), SOURCE_LOCAL_KB ∉ sel.sources →
      retrieve_information B sel = .error UNBOUND_LOCAL_MSG) ∧
    (∀ u : Understanding, SOURCE_LOCAL_KB ∈ (source_selection u).sources) := by
  constructor
  · intro B sel h
    unfold retrieve_information
    simp only [h, if_neg, if_false]
    by_cases hw : SOURCE_WEB_SEARCH ∈ sel.sources <;>
      simp [hw, Except.bind] <;>
      cases get_hkgai_answer B.hkgaiChat <;> rfl
  · intro u
    unfold source_selection
    simp

theorem C10_witness :
    retrieve_information B_err sel_nokb = .error UNBOUND_LOCAL_MSG ∧
    SOURCE_LOCAL_KB ∈ (source_selection (defaultUnderstanding uc0)).sources :=
  ⟨C10_unbound_kb_results.1 B_err sel_nokb (by decide),
   C10_unbound_kb_results.2 (defaultUnderstanding uc0)⟩

/-- C7: when the domain API is selected with a truthy handler and its
result carries an `error` key, `retrieve_information` makes exactly one
additional web-search call and overwrites the web bucket with its
results if `web_search` was not selected; if `web_search` was selected,
no fallback call happens (one web-search call total, before the domain
call) and the web bucket keeps the originally retrieved results. -/
theorem C7_domain_api_fallback (B : Backends) (sel : SourceSelection)
    (hkb : SOURCE_LOCAL_KB ∈ sel.sources)
    (hda : SOURCE_DOMAIN_API ∈ sel.sources)
    (hh : handlerTruthy sel.domain_handler = true)
    (herr : (dlookup B.domainApi "error").isSome = true) :
    (SOURCE_WEB_SEARCH ∉ sel.sources →
      retrieve_information B sel =
        .ok ({ local_kb_results :=
                 match get_hkgai_answer B.hkgaiChat with
                 | some item => item :: B.kb
                 | none => B.kb,
               web_results := B.web,
               domain_api_results := B.domainApi },
             [RetEvent.kbCall, RetEvent.hkgaiCall, RetEvent.domainCall,
              RetEvent.webSearchCall])) ∧
    (SOURCE_WEB_SEARCH ∈ sel.sources →
      retrieve_information B sel =
        .ok ({ local_kb_results := B.kb,
               web_results := B.web,
               domain_api_results := B.domainApi },
             [RetEvent.kbCall, RetEvent.webSearchCall, RetEvent.domainCall])) := by
  constructor
  · intro hw
    unfold retrieve_information
    simp only [hkb, if_pos, hw, not_false_iff, if_true]
    cases hg : get_hkgai_answer B.hkgaiChat <;>
      simp [hg, hw, hda, hh, herr, Except.bind] <;> rfl
  · intro hw
    unfold retrieve_information
    simp [hkb, hw, hda, hh, herr, Except.bind]
    rfl

theorem C7_witness :
    retrieve_information B_err sel_fin =
      .ok ({ local_kb_results :=
               match get_hkgai_answer B_err.hkgaiChat with
               | some item => item :: B_err.kb
               | none => B_err.kb,
             web_results := B_err.web,
             domain_api_results := B_err.domainApi },
           [RetEvent.kbCall, RetEvent.hkgaiCall, RetEvent.domainCall,
            RetEvent.webSearchCall]) ∧
    retrieve_information B_err sel_finweb =
      .ok ({ local_kb_results := B_err.kb,
             web_results := B_err.web,
             domain_api_results := B_err.domainApi },
           [RetEvent.kbCall, RetEvent.webSearchCall, RetEvent.domainCall]) :=
  ⟨(C7_domain_api_fallback B_err sel_fin (by decide) (by decide) (by decide)
      (by decide)).1 (by decide),
   (C7_domain_api_fallback B_err sel_finweb (by decide) (by decide) (by decide)
      (by decide)).2 (by decide)⟩

/-- C8: when `web_search` is not selected, `retrieve_information` asks
the chat collaborator for a direct answer (the `hkgaiCall` event) and,
when the reply is non-empty, prepends the synthetic item — rank 0,
score 1.0 — to the local-KB bucket; when `web_search` is selected, the
direct answer is never requested and every bucket holds exactly what
its backend returned. -/
theorem C8_direct_answer (B : Backends) (sel : SourceSelection)
    (hkb : SOURCE_LOCAL_KB ∈ sel.sources) :
    (SOURCE_WEB_SEARCH ∉ sel.sources →
      ∃ res tr, retrieve_information B sel = .ok (res, tr) ∧
        res.local_kb_results =
          (match get_hkgai_answer B.hkgaiChat with
           | some item => item :: B.kb
           | none => B.kb) ∧
        RetEvent.hkgaiCall ∈ tr ∧
        (∀ item, get_hkgai_answer B.hkgaiChat = some item →
          item.rank = some 0 ∧ item.score = some 1 ∧ item.source = "hkgai_direct")) ∧
    (SOURCE_WEB_SEARCH ∈ sel.sources →
      ∃ res tr, retrieve_information B sel = .ok (res, tr) ∧
        res.local_kb_results = B.kb ∧
        res.web_results = B.web ∧
        RetEvent.hkgaiCall ∉ tr) := by
  constructor
  · intro hw
    have hfields := fun item h => get_hkgai_answer_fields B.hkgaiChat item h
    unfold retrieve_information
    cases hg : get_hkgai_answer B.hkgaiChat <;>
      simp only [hg, hkb, hw, if_pos, if_neg, not_false_iff, if_true, ite_true,
        ite_false, Except.bind] <;>
      split_ifs with h1 h2 <;>
      refine ⟨_, _, rfl, by simp [hg], by simp, ?_⟩ <;>
      intro item h <;>
      rcases hfields item (hg.trans (by simp_all)) with ⟨hs, hr, hsrc⟩ <;>
      exact ⟨hr, hs, hsrc⟩
  · intro hw
    unfold retrieve_information
    simp only [hkb, hw, if_pos, if_neg, not_true, ite_true, ite_false, Except.bind]
    split_ifs with h1 h2 <;> refine ⟨_, _, rfl, by simp, by simp, by simp⟩

theorem C8_witness :
    (∃ res tr, retrieve_information B_err sel_fin = .ok (res, tr) ∧
      res.local_kb_results =
        (match get_hkgai_answer B_err.hkgaiChat with
         | some item => item :: B_err.kb
         | none => B_err.kb) ∧
      RetEvent.hkgaiCall ∈ tr ∧
      (∀ item, get_hkgai_answer B_err.hkgaiChat = some item →
        item.rank = some 0 ∧ item.score = some 1 ∧ item.source = "hkgai_direct")) ∧
    (∃ res tr, retrieve_information B_err sel_finweb = .ok (res, tr) ∧
      res.local_kb_results = B_err.kb ∧
      res.web_results = B_err.web ∧
      RetEvent.hkgaiCall ∉ tr) :=
  ⟨(C8_direct_answer B_err sel_fin (by decide)).1 (by decide),
   (C8_direct_answer B_err sel_finweb (by decide)).2 (by decide)⟩


/-- C5: when classification fails at any validation step — the chat
client raising, an error-key or empty-content reply, a JSON parse
error, a missing `intent`/`domain` key, or an enum violation —
`query_understanding` returns exactly the default Understanding
(`intent` factual, `domain` general, `needs_web` true, all six entity
keys empty) together with the already-computed user context. -/
theorem C5_classification_fallback (parse : String → Option JsonV)
    (http : HttpOutcome) (uc : UserContext) :
    (∀ e, HKGAIClient.chat http = .error e →
      query_understanding parse http uc = defaultUnderstanding uc) ∧
    (∀ reply, HKGAIClient.chat http = .ok reply →
      (reply.error.isSome = true ∨
       pyStrip (reply.content.getD "") = "" ∨
       parse (stripFences (pyStrip (reply.content.getD ""))) = none ∨
       (∃ kvs, parse (stripFences (pyStrip (reply.content.getD ""))) = some (.obj kvs) ∧
         ((dlookup kvs "intent").isNone ∨ (dlookup kvs "domain").isNone)) ∨
       (∃ kvs intent, parse (stripFences (pyStrip (reply.content.getD ""))) = some (.obj kvs) ∧
         dlookup kvs "intent" = some intent ∧ VALID_INTENTS.any (pyEqStr intent) = false) ∨
       (∃ kvs dom, parse (stripFences (pyStrip (reply.content.getD ""))) = some (.obj kvs) ∧
         dlookup kvs "domain" = some dom ∧ VALID_DOMAINS.any (pyEqStr dom) = false)) →
      query_understanding parse http uc = defaultUnderstanding uc) := by
  constructor
  · intro e h
    simp [query_understanding, classify_with_llm, h]
  · intro reply hchat hfail
    have hnone : classify_body parse reply = none := by
      by_cases he : reply.error.isSome
      · simp [classify_body, he]
      · by_cases hc : pyStrip (reply.content.getD "") = ""
        · simp [classify_body, he, hc]
        · rcases hfail with h | h | h | ⟨kvs, hp, h⟩ | ⟨kvs, intent, hp, hi, h⟩ |
            ⟨kvs, dom, hp, hd, h⟩
          · exact absurd h he
          · exact absurd h hc
          · simp [classify_body, he, hc, h]
          · rcases h with h | h <;>
              simp_all [classify_body, he, hc, hp, Option.isNone_iff_eq_none]
          · have h' : ∀ x ∈ VALID_INTENTS, pyEqStr intent x = false := by simpa using h
            cases hd : dlookup kvs "domain" <;>
              simp [classify_body, he, hc, hp, hi, hd, h'] <;>
              intro x hx htrue <;> exact absurd htrue (by simp [h' x hx])
          · have h' : ∀ x ∈ VALID_DOMAINS, pyEqStr dom x = false := by simpa using h
            cases hi : dlookup kvs "intent" <;>
              simp [classify_body, he, hc, hp, hi, hd, h'] <;>
              intro x hx htrue <;> exact h'
    simp [query_understanding, classify_with_llm, hchat, hnone]

theorem C5_witness :
    query_understanding (fun _ => none) (.invalidJson "Expecting value") uc0 =
      defaultUnderstanding uc0 ∧
    query_understanding (fun _ => none) (.failure "connection refused") uc0 =
      defaultUnderstanding uc0 :=
  ⟨(C5_classification_fallback (fun _ => none) (.invalidJson "Expecting value") uc0).1
      "Expecting value" (by decide),
   (C5_classification_fallback (fun _ => none) (.failure "connection refused") uc0).2
      { error := some "connection refused", content := none } (by decide)
      (Or.inl (by decide))⟩

/-- C4 (amended): a successful classification's `entities` dict contains
at least the six fixed keys; a key the model omitted is filled with an
empty list, but a key the model supplied keeps its original — possibly
non-list — value, and extra keys are preserved (so the dict need not
have exactly six keys, nor list-typed values). -/
theorem C4_entities_amended (parse : String → Option JsonV) (http : HttpOutcome)
    (reply : ChatReply) (kvs : List (String × JsonV)) (u : LLMResult)
    (hchat : HKGAIClient.chat http = .ok reply)
    (hp : parse (stripFences (pyStrip (reply.content.getD ""))) = some (.obj kvs))
    (hc : classify_with_llm parse http = some u) :
    (∀ k ∈ ENTITY_KEYS, (dlookup u.entities k).isSome = true) ∧
    (∀ k v, dlookup (rawEntities kvs) k = some v → dlookup u.entities k = some v) ∧
    (∀ k ∈ ENTITY_KEYS, dlookup (rawEntities kvs) k = none →
      dlookup u.entities k = some (.arr [])) := by
  rw [classify_with_llm, hchat] at hc
  have hent : u.entities = fillEntityKeys (rawEntities kvs) := by
    unfold classify_body at hc
    by_cases he : reply.error.isSome
    · simp [he] at hc
    · by_cases hcc : pyStrip (reply.content.getD "") = ""
      · simp [he, hcc] at hc
      · simp only [he, hcc, hp, Bool.false_eq_true, if_false, if_neg, ite_false,
          ite_true, if_true, Bool.not_eq_true] at hc
        cases hi : dlookup kvs "intent" with
        | none => simp [hi] at hc
        | some intent =>
        cases hd : dlookup kvs "domain" with
        | none => simp [hi, hd] at hc
        | some dom =>
            simp only [hi, hd] at hc
            by_cases hvi : (!VALID_INTENTS.any (pyEqStr intent)) = true
            · rw [if_pos hvi] at hc; exact absurd hc (by simp)
            · rw [if_neg hvi] at hc
              by_cases hvd : (!VALID_DOMAINS.any (pyEqStr dom)) = true
              · rw [if_pos hvd] at hc; exact absurd hc (by simp)
              · rw [if_neg hvd] at hc
                have hu := Option.some.inj hc
                have hent0 := congrArg LLMResult.entities hu
                simp only [] at hent0
                rw [← hent0]
                rw [entities_default_normalization]
  refine ⟨?_, ?_, ?_⟩
  · intro k hk
    rw [hent]
    exact dlookup_foldl_fill_isSome ENTITY_KEYS _ k hk
  · intro k v hv
    rw [hent]
    exact dlookup_foldl_fill_of_some ENTITY_KEYS _ k v hv
  · intro k hk hv
    rw [hent]
    exact dlookup_foldl_fill_of_none ENTITY_KEYS _ k hk hv

/-- C4 counterexample: with a model reply binding `locations` to the
bare string `"HK"` and carrying an extra key, the produced Understanding
keeps the non-list value and has seven entity keys — refuting "exactly
the 6 fixed keys, each bound to a list". -/
theorem C4_counterexample :
    dlookup (query_understanding parse_cx (.success "x") uc0).entities
        ENTITY_KEY_LOCATIONS = some (.str "HK") ∧
    (query_understanding parse_cx (.success "x") uc0).entities.length = 7 := by
  decide

theorem C4_witness :
    (dlookup u_cx.entities ENTITY_KEY_ORGANIZATIONS).isSome = true ∧
    dlookup u_cx.entities ENTITY_KEY_LOCATIONS = some (.str "HK") ∧
    dlookup u_cx.entities ENTITY_KEY_DATES = some (.arr []) :=
  ⟨(C4_entities_amended parse_cx (.success "x")
      { error := none, content := some "x" }
      [("intent", .str "factual"), ("domain", .str "general"),
       ("needs_web", .bool true),
       ("entities", .obj [("locations", .str "HK"), ("extra", .arr [])])]
      u_cx (by decide) (by decide) (by decide)).1 ENTITY_KEY_ORGANIZATIONS (by decide),
   (C4_entities_amended parse_cx (.success "x")
      { error := none, content := some "x" }
      [("intent", .str "factual"), ("domain", .str "general"),
       ("needs_web", .bool true),
       ("entities", .obj [("locations", .str "HK"), ("extra", .arr [])])]
      u_cx (by decide) (by decide) (by decide)).2.1 ENTITY_KEY_LOCATIONS (.str "HK")
      (by decide),
   (C4_entities_amended parse_cx (.success "x")
      { error := none, content := some "x" }
      [("intent", .str "factual"), ("domain", .str "general"),
       ("needs_web", .bool true),
       ("entities", .obj [("locations", .str "HK"), ("extra", .arr [])])]
      u_cx (by decide) (by decide) (by decide)).2.2 ENTITY_KEY_DATES (by decide)
      (by decide)⟩


/-- C3 (amended): an error-key reply yields the static "encountered an
error" string; a non-error reply's `content` value is returned verbatim
— so an empty-content reply yields the empty string, not the static
"couldn't generate a response" fallback, which would require a reply
lacking the `content` key altogether, a shape the chat client never
produces for non-error replies. -/
theorem C3_generate_response_amended (http : HttpOutcome) :
    (∀ reply, HKGAIClient.chat http = .ok reply → reply.error.isSome = true →
      generate_response http = .ok LOG_RESPONSE_ERROR) ∧
    (∀ reply, HKGAIClient.chat http = .ok reply → reply.error = none →
      generate_response http = .ok (reply.content.getD LOG_RESPONSE_FALLBACK)) ∧
    (∀ reply : ChatReply, reply.error = none → reply.content = none →
      generate_reply_branch reply = LOG_RESPONSE_FALLBACK) ∧
    (∀ reply, HKGAIClient.chat http = .ok reply → reply.error = none →
      reply.content.isSome = true) ∧
    (∀ c, generate_response (.success c) = .ok (pyStrip c)) := by
  refine ⟨?_, ?_, ?_, ?_, ?_⟩
  · intro reply hchat herr
    simp [generate_response, hchat, generate_reply_branch, herr]
  · intro reply hchat herr
    simp [generate_response, hchat, generate_reply_branch, herr]
  · intro reply herr hcont
    simp [generate_reply_branch, herr, hcont]
  · intro reply hchat herr
    cases http with
    | failure e =>
        simp [HKGAIClient.chat] at hchat
        rw [← hchat] at herr
        simp at herr
    | invalidJson e => simp [HKGAIClient.chat] at hchat
    | success c =>
        simp [HKGAIClient.chat] at hchat
        rw [← hchat]
        rfl
  · intro c
    simp [generate_response, HKGAIClient.chat, generate_reply_branch]

/-- C3 counterexample: an empty-content, non-error reply makes
`generate_response` return the empty string, not the static "couldn't
generate a response at this time." string the claim promises. -/
theorem C3_counterexample :
    generate_response (.success "") = .ok "" ∧
    generate_response (.success "") ≠ .ok LOG_RESPONSE_FALLBACK ∧
    HKGAIClient.chat (.success "") = .ok { error := none, content := some "" } := by
  decide

theorem C3_witness :
    generate_response (.failure "boom") = .ok LOG_RESPONSE_ERROR ∧
    generate_response (.success "hello") =
      .ok (({ error := none, content := some "hello" } : ChatReply).content.getD
        LOG_RESPONSE_FALLBACK) ∧
    generate_reply_branch { error := none, content := none } = LOG_RESPONSE_FALLBACK ∧
    ({ error := none, content := some "hello" } : ChatReply).content.isSome = true :=
  ⟨(C3_generate_response_amended (.failure "boom")).1
      { error := some "boom", content := none } (by decide) (by decide),
   (C3_generate_response_amended (.success "hello")).2.1
      { error := none, content := some "hello" } (by decide) (by decide),
   (C3_generate_response_amended (.success "hello")).2.2.1
      { error := none, content := none } (by decide) (by decide),
   (C3_generate_response_amended (.success "hello")).2.2.2.1
      { error := none, content := some "hello" } (by decide) (by decide)⟩

/-- C1 (amended): the pipeline always returns a string; any exception
raised inside the staged body is caught once at the top level and
converted into a non-empty error string embedding the original error
text; however, the returned answer is empty — not non-empty as the
claim states — exactly when the synthesis model returns an
empty-content (after stripping) non-error reply. -/
theorem C1_pipeline_amended (O : Oracles) (q : String) :
    (∀ e, pipeline_attempt O q = .error e →
      run_search_pipeline O q = ERROR_PIPELINE_PROCESSING ++ ": " ++ e ∧
      run_search_pipeline O q ≠ "") ∧
    (run_search_pipeline O q = "" →
      ∃ c, O.genHttp = .success c ∧ pyStrip c = "") := by
  have hne : ∀ e : String, ERROR_PIPELINE_PROCESSING ++ ": " ++ e ≠ "" := by
    intro e hcontra
    have h2 := congrArg String.length hcontra
    rw [String.length_append, String.length_append] at h2
    have hE : 0 < ERROR_PIPELINE_PROCESSING.length := by decide
    simp at h2
    omega
  constructor
  · intro e h
    have heq : run_search_pipeline O q = ERROR_PIPELINE_PROCESSING ++ ": " ++ e := by
      unfold run_search_pipeline
      rw [h]
    exact ⟨heq, by rw [heq]; exact hne e⟩
  · intro h
    unfold run_search_pipeline at h
    cases hat : pipeline_attempt O q with
    | error e => rw [hat] at h; exact absurd h (hne e)
    | ok s =>
        rw [hat] at h
        simp only [pipeline_attempt, Bind.bind, Except.bind] at hat
        cases hr : retrieve_information O.backends
            (source_selection (query_understanding O.jsonParse O.classifyHttp O.uc)) with
        | error e =>
            rw [hr] at hat
            simp at hat
        | ok res =>
            rw [hr] at hat
            simp only [] at hat
            cases hg : O.genHttp with
            | failure e2 =>
                rw [hg] at hat
                simp [generate_response, HKGAIClient.chat, generate_reply_branch] at hat
                rw [← hat] at h
                exact absurd h (by decide)
            | invalidJson e2 =>
                rw [hg] at hat
                simp [generate_response, HKGAIClient.chat] at hat
            | success c =>
                rw [hg] at hat
                simp [generate_response, HKGAIClient.chat, generate_reply_branch] at hat
                rw [← hat] at h
                exact ⟨c, rfl, h⟩

/-- C1 counterexample: with empty backends and an empty-content
synthesis reply the pipeline returns the empty string, refuting "the
returned FinalAnswer string is always non-empty". -/
theorem C1_counterexample : run_search_pipeline O_empty "q" = "" := by decide

theorem C1_witness :
    (run_search_pipeline O_raise "q" =
       ERROR_PIPELINE_PROCESSING ++ ": " ++ "Expecting value: line 1 column 1 (char 0)" ∧
     run_search_pipeline O_raise "q" ≠ "") ∧
    (∃ c, O_empty.genHttp = .success c ∧ pyStrip c = "") :=
  ⟨(C1_pipeline_amended O_raise "q").1 "Expecting value: line 1 column 1 (char 0)"
      (by decide),
   (C1_pipeline_amended O_empty "q").2 (by decide)⟩

/-- C6: in a batch of more than one item, blended reranking gives the
i-th item the final score `0.7 * original + 0.3 * normalized`, where the
normalized score is the i-th raw BM25 score divided by the batch
maximum (divisor 1 when the maximum is not positive) and lies in [0,1]
whenever the raw scores are non-negative (as BM25Okapi's are); the
flattening step gives unscored items the bucket defaults (local_kb 0.5,
web 0.7, domain_api 0.9); and on such a batch `rerank_results` is the
blend followed by the stable descending sort. -/
theorem C6_bm25_blending :
    (∀ (scoreDoc : List (List String) → List String → List String → ℚ)
       (query : String) (results : List FlatItem),
      1 < results.length →
      (∀ s ∈ bm25RawScores scoreDoc query results, 0 ≤ s) →
      ∃ m, (bm25RawScores scoreDoc query results).max? = some m ∧
      ∀ i (hi : i < results.length),
        ∃ ns : ℚ,
          ns = ((bm25RawScores scoreDoc query results).get? i).getD 0 /
               (if m > 0 then m else 1) ∧
          0 ≤ ns ∧ ns ≤ 1 ∧
          (apply_bm25_reranking true scoreDoc query results).get? i =
            some { results.get ⟨i, hi⟩ with
                   score := BM25_WEIGHT_ORIGINAL * (results.get ⟨i, hi⟩).score +
                            BM25_WEIGHT_BM25 * ns,
                   bm25_score := some ns }) ∧
    (∀ r : RetrievalResult,
      (flatten_results r).map (fun f => f.score) =
        r.local_kb_results.map (fun k => (k.score.getD DEFAULT_SCORE_LOCAL_KB)) ++
        r.web_results.map (fun w => (w.score.getD DEFAULT_SCORE_WEB)) ++
        (if r.domain_api_results.isEmpty then [] else [DEFAULT_SCORE_DOMAIN_API])) ∧
    (∀ (scoreDoc : List (List String) → List String → List String → ℚ)
       (r : RetrievalResult) (q : String),
      1 < (flatten_results r).length →
      rerank_results true scoreDoc r q =
        sortByScoreDesc (apply_bm25_reranking true scoreDoc q (flatten_results r))) := by
  refine ⟨?_, ?_, ?_⟩
  · intro f q rs hlen hnn
    have hlenraw : (bm25RawScores f q rs).length = rs.length := by
      simp [bm25RawScores]
    obtain ⟨x, xs, hx⟩ : ∃ x xs, bm25RawScores f q rs = x :: xs := by
      cases hr : bm25RawScores f q rs with
      | nil => rw [hr] at hlenraw; simp at hlenraw; omega
      | cons a as => exact ⟨a, as, rfl⟩
    have hmax : (bm25RawScores f q rs).max? = some (xs.foldl max x) := by
      rw [hx]; exact List.max?_cons'
    refine ⟨_, hmax, ?_⟩
    intro i hi
    have hiraw : i < (bm25RawScores f q rs).length := by rw [hlenraw]; exact hi
    have hget : (bm25RawScores f q rs).get? i =
        some ((bm25RawScores f q rs).get ⟨i, hiraw⟩) := List.get?_eq_get hiraw
    set rawi := (bm25RawScores f q rs).get ⟨i, hiraw⟩ with hrawi
    have hmem : rawi ∈ bm25RawScores f q rs := List.get_mem _ _ _
    have hle : rawi ≤ xs.foldl max x := mem_le_max? _ _ _ hmem hmax
    have hnn_i : 0 ≤ rawi := hnn _ hmem
    set m := xs.foldl max x with hm
    have hdiv_pos : (0:ℚ) < (if m > 0 then m else 1) := by
      by_cases hmp : m > 0
      · simpa [hmp]
      · simp [hmp]
    refine ⟨rawi / (if m > 0 then m else 1), by rw [hget]; rfl, ?_, ?_, ?_⟩
    · exact div_nonneg hnn_i hdiv_pos.le
    · by_cases hmp : m > 0
      · rw [if_pos hmp]
        exact (div_le_one hmp).mpr hle
      · rw [if_neg hmp]
        have h1 : rawi ≤ 1 := le_trans hle (le_trans (not_lt.mp hmp) (by norm_num))
        simpa using h1
    · unfold apply_bm25_reranking
      simp only [Bool.not_true, Bool.false_eq_true, if_false, ite_false]
      rw [hmax]
      simp only [List.zip, List.get?_eq_getElem?, List.getElem?_map, List.getElem?_zipWith]
      have hgetElem : (bm25RawScores f q rs)[i]? = some rawi := by
        rw [← List.get?_eq_getElem?]; exact hget
      have hrs : rs[i]? = some (rs.get ⟨i, hi⟩) := by
        rw [← List.get?_eq_getElem?]; exact List.get?_eq_get hi
      rw [hgetElem, hrs]
      rfl
  · intro r
    simp only [flatten_results, List.map_append, List.map_map]
    split_ifs <;> simp [Function.comp_def]
  · intro f r q hlen
    simp [rerank_results, hlen]

theorem C6_witness :
    (∃ m, (bm25RawScores zeroScoreDoc "q" items2).max? = some m ∧
      ∀ i (hi : i < items2.length),
        ∃ ns : ℚ,
          ns = ((bm25RawScores zeroScoreDoc "q" items2).get? i).getD 0 /
               (if m > 0 then m else 1) ∧
          0 ≤ ns ∧ ns ≤ 1 ∧
          (apply_bm25_reranking true zeroScoreDoc "q" items2).get? i =
            some { items2.get ⟨i, hi⟩ with
                   score := BM25_WEIGHT_ORIGINAL * (items2.get ⟨i, hi⟩).score +
                            BM25_WEIGHT_BM25 * ns,
                   bm25_score := some ns }) ∧
    (rerank_results true zeroScoreDoc R2 "q" =
      sortByScoreDesc (apply_bm25_reranking true zeroScoreDoc "q" (flatten_results R2))) :=
  ⟨C6_bm25_blending.1 zeroScoreDoc "q" items2 (by decide) (by decide),
   C6_bm25_blending.2.2 zeroScoreDoc R2 "q" (by decide)⟩

end RAG





